import Mathlib

/-!
Verification of the sophi tutoring engine (sophi_ai.py, wolfram_checker.py).

The Python source is embedded shallowly: pure functions become Lean
functions; JSON values decoded by json.loads become the inductive type
Json; calls to external services (the Gemini model, the Wolfram oracle,
the answer-recovery subcall) are passed in as explicit environment
parameters, so that each embedded operation is a total function of its
inputs and its environment.  Machine integers are Int (Python ints are
unbounded); floats that the code only ever compares and clamps are
modelled as rationals.
-/

namespace Sophi

/-- ASCII whitespace recognised by Python str.strip and the regex class. -/
def isPySpace (c : Char) : Bool :=
  c == ' ' || c == '\t' || c == '\n' || c == '\r' || c == '\x0b' || c == '\x0c'

/-- Python str.strip on a character list. -/
def pyStripL (l : List Char) : List Char :=
  ((l.dropWhile isPySpace).reverse.dropWhile isPySpace).reverse

/-- Python str.strip (ASCII whitespace). -/
def pyStrip (s : String) : String :=
  String.mk (pyStripL s.toList)

/-- JSON values as produced by json.loads. -/
inductive Json where
  | null
  | bool (b : Bool)
  | num (q : ℚ)
  | str (s : String)
  | arr (items : List Json)
  | obj (fields : List (String × Json))

/-- A decoded JSON object body: what the source calls JsonDict. -/
abbrev JsonDict := List (String × Json)

/-- Dictionary lookup, first matching key (Python dicts have unique keys). -/
def jLookup : JsonDict → String → Option Json
  | [], _ => none
  | (k, v) :: rest, key => if k = key then some v else jLookup rest key

/-- Python `key in dict`. -/
def dictContains (d : JsonDict) (k : String) : Bool :=
  (jLookup d k).isSome

/-- Python dict.get (default None). -/
def dictGet (d : JsonDict) (k : String) : Option Json :=
  jLookup d k

/-- Python truthiness of a decoded JSON value. -/
def pyBool : Json → Bool
  | .null => false
  | .bool b => b
  | .num q => if q = 0 then false else true
  | .str s => if s = "" then false else true
  | .arr items => if items.isEmpty then true = false else true
  | .obj fields => if fields.isEmpty then true = false else true

/-- Truthiness of dict.get output: bool(d.get(k)) with bool(None) = False. -/
def pyBoolOpt : Option Json → Bool
  | some v => pyBool v
  | none => false

mutual

/-- Python str() on a decoded JSON value.  Strings print as themselves,
None/True/False as in Python; numeric and container formatting is
approximated (integers exactly, other rationals as num/den, containers in
a bracketed comma form), which no theorem below depends on. -/
def pyStr : Json → String
  | .null => "None"
  | .bool true => "True"
  | .bool false => "False"
  | .num q => if q.den = 1 then toString q.num else toString q.num ++ "/" ++ toString q.den
  | .str s => s
  | .arr items => "[" ++ pyStrSeq items ++ "]"
  | .obj fields => "\x7b" ++ pyStrFields fields ++ "\x7d"

def pyStrSeq : List Json → String
  | [] => ""
  | [x] => pyStr x
  | x :: rest => pyStr x ++ ", " ++ pyStrSeq rest

def pyStrFields : List (String × Json) → String
  | [] => ""
  | [(k, v)] => k ++ ": " ++ pyStr v
  | (k, v) :: rest => k ++ ": " ++ pyStr v ++ ", " ++ pyStrFields rest

end

/-- Python `str(x or "")` for x an optional JSON value (missing key or
falsy value collapse to the empty string). -/
def pyStrOrEmpty (o : Option Json) : String :=
  match o with
  | some v => if pyBool v then pyStr v else ""
  | none => ""

/-- `str(d.get(k) or "").strip()`, the field-extraction idiom of the source. -/
def strFieldStripped (d : JsonDict) (k : String) : String :=
  pyStrip (pyStrOrEmpty (dictGet d k))

/-- Does one list start with another (empty pattern always matches)? -/
def listStartsWith : List Char → List Char → Bool
  | _, [] => true
  | [], _ :: _ => false
  | a :: as, b :: bs => a == b && listStartsWith as bs

/-- Substring test on character lists. -/
def listContainsSub : List Char → List Char → Bool
  | [], pat => pat.isEmpty
  | c :: rest, pat => listStartsWith (c :: rest) pat || listContainsSub rest pat

/-- Python `pat in s` substring test. -/
def containsSubstr (s pat : String) : Bool :=
  listContainsSub s.toList pat.toList

/-- Session parameters (sophi_ai.py, SessionParameters). -/
structure SessionParameters where
  difficulty_level : Int
  cumulative : Bool
  adaptive : Bool
  focus_concepts : List String
  unit_focus : Option String

/-- SessionParameters.normalized (sophi_ai.py lines 28-34): clamp
difficulty_level into [1,5] with two sequential conditionals. -/
def SessionParameters.normalized (s : SessionParameters) : SessionParameters :=
  let d := s.difficulty_level
  let d := if d < 1 then 1 else d
  let d := if d > 5 then 5 else d
  { s with difficulty_level := d }

/-- SophiAIUtil.adjust_session_parameters (sophi_ai.py lines 550-576),
translated clause by clause from the source. -/
def adjust_session_parameters (session : SessionParameters)
    (question_answer_history : Option (List JsonDict)) : SessionParameters :=
  let session := session.normalized
  if session.adaptive = false then session
  else
    let history := question_answer_history.getD []
    let recent := history.drop (history.length - 6)
    let correctness :=
      (recent.filter (fun h => dictContains h "correct")).map
        (fun h => pyBoolOpt (dictGet h "correct"))
    if correctness.length < 3 then session
    else
      let last3 := correctness.drop (correctness.length - 3)
      let difficulty := session.difficulty_level
      let difficulty :=
        if last3.all id then difficulty + 1
        else if last3.any id = false then difficulty - 1
        else difficulty
      let difficulty := if difficulty < 1 then 1 else difficulty
      let difficulty := if difficulty > 5 then 5 else difficulty
      { session with difficulty_level := difficulty }

/-- Reference difficulty adjustment, written from the words of the spec:
normalize, return unchanged when not adaptive, collect the correctness
flags carried by the last six history entries, require at least three,
then move the difficulty by the signed vote of the last three and clamp
the result into [1,5]. -/
def adjustSpecRef (s : SessionParameters) (h : List JsonDict) : SessionParameters :=
  let ns := s.normalized
  if ns.adaptive = false then ns
  else
    let flagged :=
      ((h.drop (h.length - 6)).filter (fun e => dictContains e "correct")).map
        (fun e => pyBoolOpt (dictGet e "correct"))
    if flagged.length < 3 then ns
    else
      let last3 := flagged.drop (flagged.length - 3)
      let delta : Int :=
        if last3.all id then 1
        else if last3.all (fun b => !b) then -1
        else 0
      { ns with difficulty_level := min 5 (max 1 (ns.difficulty_level + delta)) }

theorem list_any_id_eq_false_iff_all_not (l : List Bool) :
    (l.any id = false) = (l.all (fun b => !b) = true) := by
  induction l with
  | nil => simp
  | cons b rest ih =>
    cases b <;> simp_all [List.any_cons, List.all_cons]

/-- C9: normalization clamps difficulty_level into [1,5] (below-range to
1, above-range to 5, in-range unchanged), leaves every other field
unchanged, and is idempotent. -/
theorem normalized_clamps_and_idempotent (s : SessionParameters) :
    (1 ≤ s.normalized.difficulty_level ∧ s.normalized.difficulty_level ≤ 5)
    ∧ (s.difficulty_level < 1 → s.normalized.difficulty_level = 1)
    ∧ (5 < s.difficulty_level → s.normalized.difficulty_level = 5)
    ∧ (1 ≤ s.difficulty_level → s.difficulty_level ≤ 5 →
        s.normalized.difficulty_level = s.difficulty_level)
    ∧ s.normalized.cumulative = s.cumulative
    ∧ s.normalized.adaptive = s.adaptive
    ∧ s.normalized.focus_concepts = s.focus_concepts
    ∧ s.normalized.unit_focus = s.unit_focus
    ∧ s.normalized.normalized = s.normalized := by
  unfold SessionParameters.normalized
  refine ⟨?_, ?_, ?_, ?_, ?_, ?_, ?_, ?_, ?_⟩ <;>
    simp only [] <;> split_ifs <;> simp_all <;> omega

/-- Witness for C9 at concrete sessions 7 (above range) and 0 (below range). -/
theorem normalized_clamps_witness :
    ((5 : Int) < 7 ∧
      (SessionParameters.mk 7 false true [] none).normalized.difficulty_level = 5)
    ∧ ((0 : Int) < 1 ∧
      (SessionParameters.mk 0 true false ["algebra"] none).normalized.difficulty_level = 1) :=
  ⟨⟨by norm_num,
      (normalized_clamps_and_idempotent (SessionParameters.mk 7 false true [] none)).2.2.1
        (by norm_num)⟩,
    ⟨by norm_num,
      (normalized_clamps_and_idempotent
          (SessionParameters.mk 0 true false ["algebra"] none)).2.1 (by norm_num)⟩⟩

theorem clamp_chain_eq_min_max (d : Int) :
    (if (if d < 1 then 1 else d) > 5 then 5 else if d < 1 then 1 else d)
      = min 5 (max 1 d) := by
  split_ifs <;> omega

/-- C1: adjust_session_parameters coincides with the reference definition
written from the spec, for every session and every history list. -/
theorem adjust_session_parameters_matches_spec (s : SessionParameters)
    (h : List JsonDict) :
    adjust_session_parameters s (some h) = adjustSpecRef s h := by
  unfold adjust_session_parameters adjustSpecRef
  simp only [Option.getD]
  by_cases h1 : s.normalized.adaptive = false
  · rw [if_pos h1, if_pos h1]
  · rw [if_neg h1, if_neg h1]
    set L := ((h.drop (h.length - 6)).filter fun e => dictContains e "correct").map
        (fun e => pyBoolOpt (dictGet e "correct")) with hL
    by_cases h2 : L.length < 3
    · rw [if_pos h2, if_pos h2]
    · rw [if_neg h2, if_neg h2]
      set last3 := L.drop (L.length - 3) with hlast3
      by_cases h3 : last3.all id
      · rw [if_pos h3, if_pos h3]
        congr 1
        exact clamp_chain_eq_min_max _
      · rw [if_neg h3, if_neg h3]
        by_cases h4 : last3.any id = false
        · have h4' : last3.all (fun b => !b) = true := by
            rw [← list_any_id_eq_false_iff_all_not]; exact h4
          rw [if_pos h4, if_pos h4']
          congr 1
          exact clamp_chain_eq_min_max _
        · have h4' : ¬ last3.all (fun b => !b) = true := by
            rw [← list_any_id_eq_false_iff_all_not]; exact h4
          rw [if_neg h4, if_neg h4']
          congr 1
          have h5 := clamp_chain_eq_min_max (s.normalized.difficulty_level)
          rw [h5]
          omega

/-! ## JSON repair pipeline (GeminiClient, sophi_ai.py lines 181-292) -/

/-- The double-quote character. -/
def dquote : Char := Char.ofNat 34

/-- The backslash character. -/
def bslash : Char := Char.ofNat 92

/-- The opening brace character. -/
def lbrace : Char := Char.ofNat 123

/-- The closing brace character. -/
def rbrace : Char := Char.ofNat 125

/-- The opening square bracket character. -/
def lbrack : Char := Char.ofNat 91

/-- The closing square bracket character. -/
def rbrack : Char := Char.ofNat 93

/-- The backtick character. -/
def btick : Char := Char.ofNat 96

/-- First index at which a pattern occurs as a sublist (Python str.find). -/
def findSubIdx : List Char → List Char → Option Nat
  | [], pat => if pat.isEmpty then some 0 else none
  | c :: rest, pat =>
    if listStartsWith (c :: rest) pat then some 0
    else (findSubIdx rest pat).map (fun i => i + 1)

/-- First index of a character (Python str.find of a single character). -/
def findCharIdx (l : List Char) (c : Char) : Option Nat :=
  l.findIdx? (fun x => x == c)

/-- Last index of a character (Python str.rfind). -/
def rfindCharIdx (l : List Char) (c : Char) : Option Nat :=
  match (l.reverse.findIdx? (fun x => x == c)) with
  | some i => some (l.length - 1 - i)
  | none => none

/-- Characters of the fence language tag class [a-zA-Z0-9_-]. -/
def isLangChar (c : Char) : Bool :=
  c.isAlpha || c.isDigit || c == '_' || c == '-'

/-- GeminiClient._strip_code_fences (lines 181-195): find the first
triple-backtick fence, skip an optional language tag and whitespace, and
cut at the matching closing fence, stripping the extracted content.
Also spec repair step 1. -/
def stripCodeFences (text : String) : String :=
  let s := pyStripL text.toList
  let fence := [btick, btick, btick]
  match findSubIdx s fence with
  | none => String.mk s
  | some start =>
    let afterTicks := s.drop (start + 3)
    let langLen := (afterTicks.takeWhile isLangChar).length
    let wsLen := ((afterTicks.drop langLen).takeWhile isPySpace).length
    let content := afterTicks.drop (langLen + wsLen)
    match findSubIdx content fence with
    | some endIdx => String.mk (pyStripL (content.take endIdx))
    | none => String.mk (pyStripL content)

/-- The span-extraction part of GeminiClient._extract_json_candidate
(lines 199-214), operating on the fence-stripped text: locate the first
opening brace or bracket and the last matching closer.  Also spec repair
step 2. -/
def extractJsonSpan (l : List Char) : List Char :=
  let firstObj := findCharIdx l lbrace
  let firstArr := findCharIdx l lbrack
  match firstObj, firstArr with
  | none, none => l
  | none, some a => extractSlice l a (rfindCharIdx l rbrack)
  | some o, none => extractSlice l o (rfindCharIdx l rbrace)
  | some o, some a =>
    if o < a then extractSlice l o (rfindCharIdx l rbrace)
    else extractSlice l a (rfindCharIdx l rbrack)
where
  extractSlice (l : List Char) (start : Nat) (endIdx : Option Nat) : List Char :=
    match endIdx with
    | none => l.drop start
    | some e => if e ≤ start then l.drop start else (l.take (e + 1)).drop start

/-- GeminiClient._extract_json_candidate (lines 197-214). -/
def extract_json_candidate (text : String) : String :=
  String.mk (extractJsonSpan (stripCodeFences text).toList)

/-- Scanner of GeminiClient._escape_newlines_in_json_strings
(lines 216-249): inside string literals, newline becomes a two-character
escape, carriage return is dropped, tab becomes a two-character escape;
escape and quote state are tracked.  Also spec repair step 3. -/
def escapeScan : List Char → Bool → Bool → List Char
  | [], _, _ => []
  | ch :: rest, inStr, esc =>
    if inStr then
      if esc then ch :: escapeScan rest true false
      else if ch = bslash then ch :: escapeScan rest true true
      else if ch = dquote then ch :: escapeScan rest false false
      else if ch = '\n' then bslash :: 'n' :: escapeScan rest true false
      else if ch = '\r' then escapeScan rest true false
      else if ch = '\t' then bslash :: 't' :: escapeScan rest true false
      else ch :: escapeScan rest true false
    else if ch = dquote then ch :: escapeScan rest true false
    else ch :: escapeScan rest false false

/-- GeminiClient._escape_newlines_in_json_strings (lines 216-249). -/
def escape_newlines_in_json_strings (text : String) : String :=
  String.mk (escapeScan text.toList false false)

/-- Scanner of GeminiClient._close_unbalanced_json (lines 251-285):
returns the stack of expected closers (innermost first) and the
open-string flag after the whole text is consumed. -/
def closeScan : List Char → List Char → Bool → Bool → (List Char × Bool)
  | [], stack, inStr, _ => (stack, inStr)
  | ch :: rest, stack, inStr, esc =>
    if inStr then
      if esc then closeScan rest stack true false
      else if ch = bslash then closeScan rest stack true true
      else if ch = dquote then closeScan rest stack false false
      else closeScan rest stack true false
    else
      if ch = dquote then closeScan rest stack true false
      else if ch = lbrace then closeScan rest (rbrace :: stack) false false
      else if ch = lbrack then closeScan rest (rbrack :: stack) false false
      else if ch = rbrace || ch = rbrack then
        match stack with
        | top :: stk =>
          if top = ch then closeScan rest stk false false
          else closeScan rest stack false false
        | [] => closeScan rest stack false false
      else closeScan rest stack false false

/-- GeminiClient._close_unbalanced_json (lines 251-285): append a closing
quote if a string was left open, then the pending closers.  Also spec
repair step 5. -/
def close_unbalanced_json (text : String) : String :=
  let scanned := closeScan text.toList [] false false
  text ++ String.mk ((if scanned.2 then [dquote] else []) ++ scanned.1)

/-- The substitution of the trailing-comma regex (line 291): a comma
followed by whitespace and a closing brace or bracket is replaced by that
closer, scanning left to right without overlap.  Also spec repair
step 4.  Fuel-based; fuel at least the length of the list makes the
recursion total. -/
def stripCommasAux : Nat → List Char → List Char
  | 0, l => l
  | _ + 1, [] => []
  | fuel + 1, c :: rest =>
    if c = ',' then
      let wsLen := (rest.takeWhile isPySpace).length
      match rest.drop wsLen with
      | d :: rest2 =>
        if d = rbrace || d = rbrack then d :: stripCommasAux fuel rest2
        else c :: stripCommasAux fuel rest
      | [] => c :: stripCommasAux fuel rest
    else c :: stripCommasAux fuel rest

/-- The trailing-comma substitution applied to a string. -/
def strip_trailing_commas (s : String) : String :=
  String.mk (stripCommasAux s.toList.length s.toList)

/-- GeminiClient._repair_json_text (lines 287-292): candidate extraction,
control-character escaping, closing of unbalanced brackets, trailing-comma
removal, and a final whitespace trim, in the order of the source. -/
def repair_json_text (text : String) : String :=
  pyStrip (strip_trailing_commas (close_unbalanced_json
    (escape_newlines_in_json_strings (extract_json_candidate text))))

/-- The repair pipeline in the order the spec lists the steps: fences,
candidate span, control-character escaping, trailing-comma removal, and
closing of unbalanced brackets last. -/
def repairSpecOrdered (text : String) : String :=
  close_unbalanced_json (strip_trailing_commas
    (escape_newlines_in_json_strings
      (String.mk (extractJsonSpan (stripCodeFences text).toList))))

/-- The repair pipeline with the last two spec steps exchanged to match
the source (close unbalanced brackets, then strip trailing commas) and a
final whitespace trim. -/
def repairSpecAmended (text : String) : String :=
  pyStrip (strip_trailing_commas (close_unbalanced_json
    (escape_newlines_in_json_strings
      (String.mk (extractJsonSpan (stripCodeFences text).toList)))))

/-! ## A model of Python json.loads

Used as the acceptance predicate of direct JSON parsing and, later, by
retry_delay_seconds.  It follows the grammar of the json module: the
special constants NaN and Infinity, and astral-plane surrogate pairing in
string escapes, are not modelled; no input considered below uses them. -/

/-- JSON-decoder whitespace (space, tab, newline, carriage return). -/
def skipJsonWs (l : List Char) : List Char :=
  l.dropWhile (fun c => c == ' ' || c == '\t' || c == '\n' || c == '\r')

/-- Hex digit value. -/
def parseHex (c : Char) : Option Nat :=
  if c.isDigit then some (c.toNat - 48)
  else if 97 ≤ c.toNat ∧ c.toNat ≤ 102 then some (c.toNat - 87)
  else if 65 ≤ c.toNat ∧ c.toNat ≤ 70 then some (c.toNat - 55)
  else none

/-- Numeric value of a digit list. -/
def digitsToNat (l : List Char) : Nat :=
  l.foldl (fun acc c => acc * 10 + (c.toNat - 48)) 0

/-- String-literal body after the opening quote: content and remainder. -/
def parseJsonString : Nat → List Char → Option (List Char × List Char)
  | 0, _ => none
  | _ + 1, [] => none
  | fuel + 1, c :: rest =>
    if c = dquote then some ([], rest)
    else if c = bslash then
      match rest with
      | [] => none
      | e :: rest2 =>
        if e = dquote ∨ e = bslash ∨ e = '/' then
          (parseJsonString fuel rest2).map (fun p => (e :: p.1, p.2))
        else if e = 'b' then
          (parseJsonString fuel rest2).map (fun p => (Char.ofNat 8 :: p.1, p.2))
        else if e = 'f' then
          (parseJsonString fuel rest2).map (fun p => (Char.ofNat 12 :: p.1, p.2))
        else if e = 'n' then
          (parseJsonString fuel rest2).map (fun p => ('\n' :: p.1, p.2))
        else if e = 'r' then
          (parseJsonString fuel rest2).map (fun p => ('\r' :: p.1, p.2))
        else if e = 't' then
          (parseJsonString fuel rest2).map (fun p => ('\t' :: p.1, p.2))
        else if e = 'u' then
          match rest2 with
          | h1 :: h2 :: h3 :: h4 :: rest3 =>
            match parseHex h1, parseHex h2, parseHex h3, parseHex h4 with
            | some a, some b, some c2, some d =>
              (parseJsonString fuel rest3).map
                (fun p => (Char.ofNat (((a * 16 + b) * 16 + c2) * 16 + d) :: p.1, p.2))
            | _, _, _, _ => none
          | _ => none
        else none
    else if c.toNat < 32 then none
    else (parseJsonString fuel rest).map (fun p => (c :: p.1, p.2))

/-- Number token per the json module regex:
minus sign, integer part without leading zeros, optional fraction,
optional exponent. -/
def parseJsonNumber (l : List Char) : Option (ℚ × List Char) :=
  let signAndRest : Bool × List Char :=
    match l with
    | c :: r => if c = '-' then (true, r) else (false, l)
    | [] => (false, l)
  let neg := signAndRest.1
  let l1 := signAndRest.2
  let ds := l1.takeWhile Char.isDigit
  let l2 := l1.drop ds.length
  if ds.isEmpty then none
  else if 1 < ds.length ∧ ds.headD '0' = '0' then none
  else
    let ipart : ℚ := (digitsToNat ds : ℚ)
    let fracAndRest : ℚ × List Char :=
      match l2 with
      | c :: r =>
        if c = '.' then
          let fs := r.takeWhile Char.isDigit
          if fs.isEmpty then (0, l2)
          else ((digitsToNat fs : ℚ) / ((10 : ℚ) ^ fs.length), r.drop fs.length)
        else (0, l2)
      | [] => (0, l2)
    let withFrac := ipart + fracAndRest.1
    let l3 := fracAndRest.2
    let fracOk : Bool := match l2 with
      | c :: r => if c = '.' then !(r.takeWhile Char.isDigit).isEmpty else true
      | [] => true
    if fracOk = false then
      if l3 = l2 then some (if neg then -withFrac else withFrac, l3) else none
    else
      let expAndRest : Option (Int × List Char) :=
        match l3 with
        | c :: r =>
          if c = 'e' ∨ c = 'E' then
            let signRest : Bool × List Char :=
              match r with
              | c2 :: r2 => if c2 = '-' then (true, r2) else if c2 = '+' then (false, r2) else (false, r)
              | [] => (false, r)
            let es := signRest.2.takeWhile Char.isDigit
            if es.isEmpty then none
            else some (if signRest.1 then -(digitsToNat es : Int) else (digitsToNat es : Int),
              signRest.2.drop es.length)
          else some (0, l3)
        | [] => some (0, l3)
      match expAndRest with
      | none => none
      | some (e, l4) =>
        let q := withFrac * ((10 : ℚ) ^ e)
        some (if neg then -q else q, l4)

mutual

/-- One JSON value starting at the head of the list (whitespace already
skipped), returning the value and the remainder. -/
def parseJsonValue : Nat → List Char → Option (Json × List Char)
  | 0, _ => none
  | fuel + 1, l =>
    match l with
    | [] => none
    | c :: rest =>
      if c = lbrace then
        let l2 := skipJsonWs rest
        match l2 with
        | c2 :: r2 =>
          if c2 = rbrace then some (Json.obj [], r2)
          else (parseJsonObjRest fuel l2).map (fun p => (Json.obj p.1, p.2))
        | [] => none
      else if c = lbrack then
        let l2 := skipJsonWs rest
        match l2 with
        | c2 :: r2 =>
          if c2 = rbrack then some (Json.arr [], r2)
          else (parseJsonArrRest fuel l2).map (fun p => (Json.arr p.1, p.2))
        | [] => none
      else if c = dquote then
        (parseJsonString fuel rest).map (fun p => (Json.str (String.mk p.1), p.2))
      else if listStartsWith l ['t', 'r', 'u', 'e'] then some (Json.bool true, l.drop 4)
      else if listStartsWith l ['f', 'a', 'l', 's', 'e'] then some (Json.bool false, l.drop 5)
      else if listStartsWith l ['n', 'u', 'l', 'l'] then some (Json.null, l.drop 4)
      else (parseJsonNumber l).map (fun p => (Json.num p.1, p.2))

/-- Nonempty member list of an object, starting at the first key. -/
def parseJsonObjRest : Nat → List Char → Option (List (String × Json) × List Char)
  | 0, _ => none
  | fuel + 1, l =>
    match skipJsonWs l with
    | [] => none
    | c :: rest =>
      if c = dquote then
        match parseJsonString fuel rest with
        | none => none
        | some (ks, r1) =>
          match skipJsonWs r1 with
          | [] => none
          | c2 :: r2 =>
            if c2 = ':' then
              match parseJsonValue fuel (skipJsonWs r2) with
              | none => none
              | some (v, r3) =>
                match skipJsonWs r3 with
                | [] => none
                | c3 :: r4 =>
                  if c3 = ',' then
                    (parseJsonObjRest fuel r4).map
                      (fun p => ((String.mk ks, v) :: p.1, p.2))
                  else if c3 = rbrace then some ([(String.mk ks, v)], r4)
                  else none
            else none
      else none

/-- Nonempty element list of an array, starting at the first element. -/
def parseJsonArrRest : Nat → List Char → Option (List Json × List Char)
  | 0, _ => none
  | fuel + 1, l =>
    match parseJsonValue fuel (skipJsonWs l) with
    | none => none
    | some (v, r1) =>
      match skipJsonWs r1 with
      | [] => none
      | c :: r2 =>
        if c = ',' then (parseJsonArrRest fuel r2).map (fun p => (v :: p.1, p.2))
        else if c = rbrack then some ([v], r2)
        else none

end

/-- Python json.loads: a value surrounded by optional whitespace, nothing
after it; none models a raised JSONDecodeError. -/
def pyJsonLoads (s : String) : Option Json :=
  match parseJsonValue (s.toList.length + 2) (skipJsonWs s.toList) with
  | some (v, rest) => if (skipJsonWs rest).isEmpty then some v else none
  | none => none

/-- C5 counterexample input: on a truncated array on which direct parsing
fails, the source pipeline (close before comma-strip) and the
spec-ordered pipeline (comma-strip before close) disagree. -/
theorem repair_order_counterexample :
    pyJsonLoads "[1," = none
    ∧ repair_json_text "[1," = "[1]"
    ∧ repairSpecOrdered "[1," = "[1,]"
    ∧ repair_json_text "[1," ≠ repairSpecOrdered "[1," := by
  refine ⟨rfl, rfl, rfl, ?_⟩
  decide

/-- C5 amended: on every input on which direct JSON parsing fails, the
implemented repair function equals the pipeline that strips fences,
extracts the candidate span, escapes control characters, closes
unbalanced brackets, then strips trailing commas and trims surrounding
whitespace. -/
theorem repair_json_text_matches_amended_pipeline (s : String)
    (h : pyJsonLoads s = none) :
    repair_json_text s = repairSpecAmended s := rfl

/-- Witness for the amended C5 pipeline equality at a fenced object with a
trailing comma. -/
theorem repair_json_text_matches_amended_pipeline_witness :
    pyJsonLoads "```json\n\x7b\"a\":1,\x7d\n```" = none
    ∧ repair_json_text "```json\n\x7b\"a\":1,\x7d\n```"
        = repairSpecAmended "```json\n\x7b\"a\":1,\x7d\n```" :=
  ⟨rfl, repair_json_text_matches_amended_pipeline ("```json\n\x7b\"a\":1,\x7d\n```") rfl⟩

/-! ## generate_json retry policy (sophi_ai.py lines 358-435) -/

/-- Python str.endswith. -/
def strEndsWith (s pat : String) : Bool :=
  listStartsWith s.toList.reverse pat.toList.reverse

/-- Python f-string rendering of an Optional[str]. -/
def pyStrOfOptStr : Option String → String
  | some s => s
  | none => "None"

/-- re.search of the pattern digits, optional whitespace, letter s — the
RetryInfo retryDelay pattern of retry_delay_seconds (line 374): value of
the digit group at the first matching position. -/
def regexDigitsWsS : List Char → Option Nat
  | [] => none
  | c :: rest =>
    if c.isDigit then
      let ds := (c :: rest).takeWhile Char.isDigit
      let after := (c :: rest).drop ds.length
      let wsLen := (after.takeWhile isPySpace).length
      match after.drop wsLen with
      | d :: _ => if d = 's' then some (digitsToNat ds) else regexDigitsWsS rest
      | [] => regexDigitsWsS rest
    else regexDigitsWsS rest

/-- Case-insensitive list prefix test (re.IGNORECASE). -/
def listStartsWithCI : List Char → List Char → Bool
  | _, [] => true
  | [], _ :: _ => false
  | a :: as, b :: bs => a.toLower == b.toLower && listStartsWithCI as bs

/-- One-position attempt of the case-insensitive pattern
retry in, digits, optional fraction, letter s (line 377): the numeric
value of the captured group when the position matches. -/
def retryInMatchAt (l : List Char) : Option ℚ :=
  if listStartsWithCI l ("retry in ".toList) then
    let rest := l.drop 9
    let ds := rest.takeWhile Char.isDigit
    if ds.isEmpty then none
    else
      let after := rest.drop ds.length
      match after with
      | c :: r =>
        if c = '.' then
          let fs := r.takeWhile Char.isDigit
          let tailOk : Bool :=
            match r.drop fs.length with
            | d :: _ => d.toLower == 's'
            | [] => true = false
          if fs.isEmpty = false ∧ tailOk then
            some ((digitsToNat ds : ℚ) + (digitsToNat fs : ℚ) / (10 : ℚ) ^ fs.length)
          else none
        else if c.toLower = 's' then some ((digitsToNat ds : ℚ))
        else none
      | [] => none
  else none

/-- re.search of the retry-in pattern over the whole body text. -/
def searchRetryIn : List Char → Option ℚ
  | [] => none
  | c :: rest =>
    match retryInMatchAt (c :: rest) with
    | some q => some q
    | none => searchRetryIn rest

/-- The RetryInfo walk of retry_delay_seconds (lines 365-376): scan the
error details for a dict whose @type ends in RetryInfo and whose
retryDelay is a string matching the digits-s pattern. -/
def scanRetryDetails : List Json → Option ℚ
  | [] => none
  | d :: rest =>
    match d with
    | Json.obj fields =>
      if strEndsWith (pyStrOrEmpty (jLookup fields "@type")) "RetryInfo" then
        match jLookup fields "retryDelay" with
        | some (Json.str rd) =>
          match regexDigitsWsS rd.toList with
          | some n => some ((n : ℚ))
          | none => scanRetryDetails rest
        | _ => scanRetryDetails rest
      else scanRetryDetails rest
    | _ => scanRetryDetails rest

/-- retry_delay_seconds (sophi_ai.py lines 358-380): a falsy body gives
none, else the structured RetryInfo hint when present, else the
retry-in text pattern. -/
def retry_delay_seconds (body_text : Option String) : Option ℚ :=
  match body_text with
  | none => none
  | some body =>
    if body = "" then none
    else
      let fromDetails : Option ℚ :=
        match pyJsonLoads body with
        | some (Json.obj fields) =>
          match jLookup fields "error" with
          | some (Json.obj errFields) =>
            match jLookup errFields "details" with
            | some (Json.arr ds) => scanRetryDetails ds
            | _ => none
          | _ => none
        | _ => none
      match fromDetails with
      | some q => some q
      | none => searchRetryIn body.toList

/-- Python `x or y` on an optional float (None and 0.0 are falsy). -/
def pyOrQ (o : Option ℚ) (fb : ℚ) : ℚ :=
  match o with
  | some x => if x = 0 then fb else x
  | none => fb

/-- The delay slept before retrying a 429 (line 420-421): the truthy
server hint or exponential backoff starting at 2, clamped into [1,65]. -/
def rateLimitDelay (attempt : Nat) (body : Option String) : ℚ :=
  min 65 (max 1 (pyOrQ (retry_delay_seconds body) ((2 : ℚ) ^ attempt * 2)))

/-- Outcome of one network attempt of generate_json, abstracting the
request, response read and candidate-text extraction (lines 387-409): a
successful extraction with the joined stripped text, an HTTPError with
status code and decoded body, or the RuntimeError raised on invalid or
empty model output. -/
inductive NetOutcome where
  | ok (text : String)
  | httpError (code : Nat) (body : Option String)
  | transientError (msg : String)

/-- A recorded time.sleep call of the retry loop. -/
inductive SleepEvent where
  | rateLimit (delay : ℚ)
  | transient (delay : ℚ)
deriving DecidableEq

/-- The attempt loop of generate_json (lines 385-435), cut after text
extraction: three attempts; a 429 before the last attempt sleeps the
computed delay and retries, any other HTTPError raises at once, a
RuntimeError before the last attempt sleeps linear backoff and retries,
and a blank extracted text raises after the loop.  Returns the outcome
and the list of sleeps performed. -/
def generateJsonLoopAux (env : Nat → NetOutcome) :
    Nat → Nat → Except String String × List SleepEvent
  | 0, _ => (.error "loop fuel exhausted", [])
  | fuel + 1, attempt =>
    match env attempt with
    | .ok text =>
      if text = "" then (.error "Gemini extraction failed.", []) else (.ok text, [])
    | .httpError code body =>
      if code = 429 ∧ attempt < 2 then
        let next := generateJsonLoopAux env fuel (attempt + 1)
        (next.1, SleepEvent.rateLimit (rateLimitDelay attempt body) :: next.2)
      else
        (.error ("Gemini HTTPError " ++ toString code ++ ": " ++ pyStrOfOptStr body), [])
    | .transientError msg =>
      if attempt < 2 then
        let next := generateJsonLoopAux env fuel (attempt + 1)
        (next.1, SleepEvent.transient ((2 : ℚ) ^ attempt * 1) :: next.2)
      else
        (.error msg, [])

/-- The retry loop entered at attempt 0 (range(3)). -/
def generateJsonAttemptLoop (env : Nat → NetOutcome) :
    Except String String × List SleepEvent :=
  generateJsonLoopAux env 3 0

/-- The retry loop as continued from a given attempt index. -/
def generateJsonLoopFrom (env : Nat → NetOutcome) (attempt : Nat) :
    Except String String × List SleepEvent :=
  generateJsonLoopAux env (3 - attempt) attempt

/-- Is a sleep event a rate-limit sleep? -/
def SleepEvent.isRateLimit : SleepEvent → Bool
  | .rateLimit _ => true
  | .transient _ => false

theorem generateJsonLoopAux_sleeps_le (env : Nat → NetOutcome) :
    ∀ (fuel a : Nat), (generateJsonLoopAux env fuel a).2.length ≤ 2 - a := by
  intro fuel
  induction fuel with
  | zero => intro a; simp [generateJsonLoopAux]
  | succ n ih =>
    intro a
    unfold generateJsonLoopAux
    cases henv : env a with
    | ok text =>
      split <;> rename_i heq <;>
        first
          | (cases heq; split <;> simp)
          | (cases heq)
    | httpError code body =>
      by_cases hc : code = 429 ∧ a < 2
      · simp only [if_pos hc, List.length_cons]
        have := ih (a + 1)
        omega
      · simp only [if_neg hc, List.length_nil]
        omega
    | transientError msg =>
      by_cases hc : a < 2
      · simp only [if_pos hc, List.length_cons]
        have := ih (a + 1)
        omega
      · simp only [if_neg hc, List.length_nil]
        omega

/-- C6 amended: the generate_json retry loop performs at most 2
rate-limit retries; before each 429 retry it sleeps the server hint when
that hint is parseable and nonzero, else exponential backoff starting at
2 seconds, clamped into [1,65]; and a non-429 HTTP error terminates the
loop at once with no sleep. -/
theorem generate_json_retry_policy (env : Nat → NetOutcome) :
    ((generateJsonAttemptLoop env).2.countP SleepEvent.isRateLimit ≤ 2)
    ∧ (∀ (a : Nat) (b : Option String), a < 2 → env a = .httpError 429 b →
        (generateJsonLoopFrom env a).2
            = SleepEvent.rateLimit (rateLimitDelay a b) :: (generateJsonLoopFrom env (a + 1)).2
        ∧ rateLimitDelay a b
            = min 65 (max 1 (match retry_delay_seconds b with
                | some h => if h = 0 then (2 : ℚ) ^ a * 2 else h
                | none => (2 : ℚ) ^ a * 2))
        ∧ 1 ≤ rateLimitDelay a b ∧ rateLimitDelay a b ≤ 65)
    ∧ (∀ (a c : Nat) (b : Option String), a < 3 → c ≠ 429 → env a = .httpError c b →
        generateJsonLoopFrom env a
          = (.error ("Gemini HTTPError " ++ toString c ++ ": " ++ pyStrOfOptStr b), [])) := by
  refine ⟨?_, ?_, ?_⟩
  · calc (generateJsonAttemptLoop env).2.countP SleepEvent.isRateLimit
        ≤ (generateJsonAttemptLoop env).2.length := List.countP_le_length _
    _ ≤ 2 := by simpa using generateJsonLoopAux_sleeps_le env 3 0
  · intro a b ha henv
    refine ⟨?_, ?_, ?_, ?_⟩
    · interval_cases a <;>
        simp [generateJsonLoopFrom, generateJsonLoopAux, henv]
    · unfold rateLimitDelay pyOrQ
      rcases retry_delay_seconds b with _ | h <;> rfl
    · exact le_min (by norm_num) (le_max_left _ _)
    · exact min_le_left _ _
  · intro a c b ha hc henv
    have hguard : ¬ (c = 429 ∧ a < 2) := by
      intro hcontra
      exact hc hcontra.1
    interval_cases a <;>
      simp [generateJsonLoopFrom, generateJsonLoopAux, henv, hguard, hc]

/-- Witness for C6 at a concrete environment: attempt 0 is a 429 with no
body, so the loop sleeps the clamped backoff of 2 and retries; a separate
environment raises HTTPError 500 and terminates untried. -/
theorem generate_json_retry_policy_witness :
    ((generateJsonLoopFrom (fun _ => NetOutcome.httpError 429 none) 0).2
        = SleepEvent.rateLimit (rateLimitDelay 0 none)
            :: (generateJsonLoopFrom (fun _ => NetOutcome.httpError 429 none) 1).2
      ∧ 1 ≤ rateLimitDelay 0 none ∧ rateLimitDelay 0 none ≤ 65)
    ∧ generateJsonLoopFrom (fun _ => NetOutcome.httpError 500 (some "boom")) 0
        = (.error ("Gemini HTTPError " ++ toString 500 ++ ": " ++ pyStrOfOptStr (some "boom")), []) :=
  ⟨(fun h => ⟨h.1, h.2.2⟩)
      ((generate_json_retry_policy (fun _ => NetOutcome.httpError 429 none)).2.1 0 none
        (by norm_num) rfl),
    (generate_json_retry_policy (fun _ => NetOutcome.httpError 500 (some "boom"))).2.2 0 500
      (some "boom") (by norm_num) (by norm_num) rfl⟩

/-- C6 counterexample: the body retry in 0s carries a parseable hint of
0 seconds, yet the loop sleeps the exponential backoff of 2, not the
clamped hint of 1: a parseable hint is not always used. -/
theorem generate_json_retry_hint_counterexample :
    retry_delay_seconds (some "retry in 0s") = some 0
    ∧ (generateJsonAttemptLoop (fun _ => NetOutcome.httpError 429 (some "retry in 0s"))).2
        = [SleepEvent.rateLimit 2, SleepEvent.rateLimit 4]
    ∧ (2 : ℚ) ≠ min 65 (max 1 0) := by
  have hr : retry_delay_seconds (some "retry in 0s") = some 0 := by decide
  have hd0 : rateLimitDelay 0 (some "retry in 0s") = 2 := by
    simp only [rateLimitDelay, pyOrQ, hr]
    norm_num [max_eq_right (by norm_num : (1 : ℚ) ≤ 2),
      min_eq_right (by norm_num : (2 : ℚ) ≤ 65)]
  have hd1 : rateLimitDelay 1 (some "retry in 0s") = 4 := by
    simp only [rateLimitDelay, pyOrQ, hr]
    norm_num [max_eq_right (by norm_num : (1 : ℚ) ≤ 4),
      min_eq_right (by norm_num : (4 : ℚ) ≤ 65)]
  refine ⟨hr, ?_, ?_⟩
  · simp [generateJsonAttemptLoop, generateJsonLoopAux, hd0, hd1]
  · rw [max_eq_left (by norm_num : (0 : ℚ) ≤ 1),
      min_eq_right (by norm_num : (1 : ℚ) ≤ 65)]
    norm_num

/-! ## json.dumps (used by validate_question_has_answer details) -/

/-- Lowercase hex digit. -/
def hexDigit (n : Nat) : Char :=
  if n < 10 then Char.ofNat (48 + n) else Char.ofNat (87 + n)

/-- Four-digit lowercase hex rendering. -/
def hex4 (n : Nat) : List Char :=
  [hexDigit (n / 4096 % 16), hexDigit (n / 256 % 16), hexDigit (n / 16 % 16), hexDigit (n % 16)]

/-- json.dumps escaping of one character inside a string literal. -/
def dumpsEscapeChar (c : Char) : List Char :=
  if c = dquote then [bslash, dquote]
  else if c = bslash then [bslash, bslash]
  else if c = Char.ofNat 8 then [bslash, 'b']
  else if c = Char.ofNat 12 then [bslash, 'f']
  else if c = '\n' then [bslash, 'n']
  else if c = '\r' then [bslash, 'r']
  else if c = '\t' then [bslash, 't']
  else if c.toNat < 32 then bslash :: 'u' :: hex4 c.toNat
  else [c]

mutual

/-- Python json.dumps with ensure_ascii=False and default separators.
Numeric formatting of non-integral rationals is approximated, which no
theorem below depends on. -/
def jsonDumps : Json → String
  | .null => "null"
  | .bool true => "true"
  | .bool false => "false"
  | .num q =>
    if q.den = 1 then toString q.num else toString q.num ++ "/" ++ toString q.den
  | .str s => String.mk (dquote :: (s.toList.map dumpsEscapeChar).flatten ++ [dquote])
  | .arr items => lbrack.toString ++ jsonDumpsSeq items ++ rbrack.toString
  | .obj fields => lbrace.toString ++ jsonDumpsFields fields ++ rbrace.toString

def jsonDumpsSeq : List Json → String
  | [] => ""
  | [x] => jsonDumps x
  | x :: rest => jsonDumps x ++ ", " ++ jsonDumpsSeq rest

def jsonDumpsFields : List (String × Json) → String
  | [] => ""
  | [(k, v)] => jsonDumps (Json.str k) ++ ": " ++ jsonDumps v
  | (k, v) :: rest => jsonDumps (Json.str k) ++ ": " ++ jsonDumps v ++ ", " ++ jsonDumpsFields rest

end

/-! ## Subject classifier and topic evaluator (sophi_ai.py lines 485-548) -/

/-- SophiAIUtil._is_math_related (lines 485-508).  The classification
call to the model is passed in as classifyOut; an error value models any
exception the call raises, and a non-dict success models an output on
which the attribute access itself would raise — both are absorbed by the
except clause and yield false. -/
def is_math_related (classifyOut : Except String Json) (context_text : String) : Bool :=
  if context_text = "" ∨ pyStrip context_text = "" then false
  else
    match classifyOut with
    | .error _ => false
    | .ok out =>
      match out with
      | .obj fields => pyBoolOpt (jLookup fields "is_math")
      | _ => false

/-- The topics branch of evaluate_question_topics (lines 541-545): a
list value is filtered down to exact members of class_topics by the
comprehension, any other shape yields the empty list. -/
def topicsOfField (class_topics : List String) : Option Json → List String
  | some (Json.arr ts) => (ts.map pyStr).filter (fun t => class_topics.contains t)
  | _ => []

/-- SophiAIUtil.evaluate_question_topics (lines 510-548): empty topic
list short-circuits before any model call; the model output (or its
raised exception, or a non-dict shape) is the modelOut parameter. -/
def evaluate_question_topics (modelOut : Except String Json) (question : String)
    (class_topics : List String) : List String :=
  if class_topics.isEmpty then []
  else
    match modelOut with
    | .error _ => []
    | .ok out =>
      match out with
      | .obj fields => topicsOfField class_topics (jLookup fields "topics")
      | _ => []

/-- C8: the oracle-eligibility gate returns false on every blank context
and on every classifier failure; it is a total Bool-valued function, so a
classifier failure never propagates. -/
theorem is_math_related_fail_closed :
    (∀ (classifyOut : Except String Json) (ctx : String),
        pyStrip ctx = "" → is_math_related classifyOut ctx = false)
    ∧ (∀ (e : String) (ctx : String), is_math_related (.error e) ctx = false) := by
  constructor
  · intro classifyOut ctx h
    unfold is_math_related
    rw [if_pos (Or.inr h)]
  · intro e ctx
    unfold is_math_related
    split_ifs <;> rfl

/-- Witness for C8: a whitespace-only context with an affirmative
classifier, and a raising classifier on a math context, both gate to
false. -/
theorem is_math_related_fail_closed_witness :
    pyStrip "   " = ""
    ∧ is_math_related (.ok (Json.obj [("is_math", Json.bool true)])) "   " = false
    ∧ is_math_related (.error "HTTPError 500") "compute the derivative of x^2" = false :=
  ⟨rfl,
    is_math_related_fail_closed.1 (.ok (Json.obj [("is_math", Json.bool true)])) "   " rfl,
    is_math_related_fail_closed.2 "HTTPError 500" "compute the derivative of x^2"⟩

theorem mem_of_containsStr :
    ∀ (l : List String) (x : String), l.contains x = true → x ∈ l := by
  intro l x h
  induction l with
  | nil => simp [List.contains] at h
  | cons c rest ih =>
    by_cases hc : x = c
    · exact hc ▸ List.mem_cons_self c rest
    · refine List.mem_cons_of_mem c (ih ?_)
      simp only [List.contains, List.elem] at h ⊢
      rw [show (x == c) = false from beq_eq_false_iff_ne.mpr hc] at h
      exact h

theorem topicsOfField_mem (cts : List String) :
    ∀ (o : Option Json) (x : String), x ∈ topicsOfField cts o → x ∈ cts
  | some (Json.arr ts), x, hx =>
    mem_of_containsStr cts x (List.mem_filter.mp hx).2
  | none, x, hx => absurd hx (List.not_mem_nil x)
  | some Json.null, x, hx => absurd hx (List.not_mem_nil x)
  | some (Json.bool _), x, hx => absurd hx (List.not_mem_nil x)
  | some (Json.num _), x, hx => absurd hx (List.not_mem_nil x)
  | some (Json.str _), x, hx => absurd hx (List.not_mem_nil x)
  | some (Json.obj _), x, hx => absurd hx (List.not_mem_nil x)

/-- C10: evaluate_question_topics returns only members of class_topics;
an empty class_topics returns the empty list without consulting the model
(the result is independent of the model environment); a model failure
returns the empty list. -/
theorem evaluate_question_topics_spec :
    (∀ (modelOut modelOut2 : Except String Json) (q : String),
        evaluate_question_topics modelOut q [] = []
        ∧ evaluate_question_topics modelOut q [] = evaluate_question_topics modelOut2 q [])
    ∧ (∀ (e : String) (q : String) (cts : List String),
        evaluate_question_topics (.error e) q cts = [])
    ∧ (∀ (modelOut : Except String Json) (q : String) (cts : List String) (x : String),
        x ∈ evaluate_question_topics modelOut q cts → x ∈ cts) := by
  refine ⟨?_, ?_, ?_⟩
  · intro m m2 q
    exact ⟨rfl, rfl⟩
  · intro e q cts
    unfold evaluate_question_topics
    split_ifs <;> rfl
  · intro m q cts x hx
    unfold evaluate_question_topics at hx
    split_ifs at hx with hempty
    · simp at hx
    · rcases m with e | out
      · simp at hx
      · rcases out with _ | b | n | s | items | fields
        · exact absurd hx (List.not_mem_nil x)
        · exact absurd hx (List.not_mem_nil x)
        · exact absurd hx (List.not_mem_nil x)
        · exact absurd hx (List.not_mem_nil x)
        · exact absurd hx (List.not_mem_nil x)
        · exact topicsOfField_mem cts (jLookup fields "topics") x hx

/-- Witness for C10 at a concrete model output containing one in-list and
one out-of-list topic. -/
theorem evaluate_question_topics_witness :
    "limits" ∈ evaluate_question_topics
        (.ok (Json.obj [("topics", Json.arr [Json.str "limits", Json.str "go"])]))
        "evaluate the limit" ["limits", "derivatives"]
    ∧ "limits" ∈ ["limits", "derivatives"] :=
  ⟨by decide,
    evaluate_question_topics_spec.2.2
      (.ok (Json.obj [("topics", Json.arr [Json.str "limits", Json.str "go"])]))
      "evaluate the limit" ["limits", "derivatives"] "limits" (by decide)⟩

/-! ## Oracle gateway consumers (wolfram_checker.py, validators) -/

/-- The sentinel phrase checked by every oracle consumer in the source. -/
def notUnderstood : String := "Wolfram|Alpha did not understand"

/-- WolframAlphaChecker.best_effort_answer (wolfram_checker.py lines
49-55); result_text (the network call) is the resultText parameter. -/
def best_effort_answer (resultText : String → Option String) (query : String) :
    Bool × Option String :=
  match resultText query with
  | none => (false, none)
  | some res =>
    if res = "" then (false, none)
    else if containsSubstr res notUnderstood then (false, some res)
    else (true, some res)

/-- Validation outcome value object (sophi_ai.py lines 56-61). -/
structure ValidationResult where
  ok : Bool
  wolfram_query : Option String
  wolfram_result : Option String
  details : Option String

/-- SophiAIUtil.validate_hint_against_step (lines 697-797): the
classifier call and the model call are environment parameters; the model
output is typed JsonDict as in the source; oracle results are attached
but ok is the model consistency judgment. -/
def validate_hint_against_step (classifyOut : Except String Json)
    (modelOut : Except String JsonDict) (resultText : String → Option String)
    (question : String) (use_wolfram : Bool) : Except String ValidationResult :=
  let uw := if use_wolfram ∧ is_math_related classifyOut question = false then false
    else use_wolfram
  match modelOut with
  | .error e => .error e
  | .ok out =>
    let wqs : String :=
      match jLookup out "wolfram_query" with
      | some v => if pyBool v then pyStrip (pyStr v) else ""
      | none => ""
    let wolfram_result := if uw ∧ wqs ≠ "" then resultText wqs else none
    let is_consistent := pyBoolOpt (jLookup out "is_consistent")
    let expl := pyStrip (pyStrOrEmpty (jLookup out "explanation"))
    .ok ⟨is_consistent, if wqs = "" then none else some wqs, wolfram_result,
      if expl = "" then none else some expl⟩

/-- First dict element of a list (the coerce_dict helper, lines 588-596). -/
def firstObjFields : List Json → Option JsonDict
  | [] => none
  | Json.obj f :: _ => some f
  | _ :: rest => firstObjFields rest

/-- coerce_dict (lines 588-596). -/
def coerceDict : Json → Option JsonDict
  | .obj fields => some fields
  | .arr items => firstObjFields items
  | _ => none

/-- The oracle-query extraction of validate_question_has_answer (lines
682-691): dict field, bare string, or first string element of a list. -/
def vqhaExtractQuery (out : Json) : String :=
  match coerceDict out with
  | some d => strFieldStripped d "wolfram_query"
  | none =>
    match out with
    | .str s => pyStrip s
    | .arr (Json.str s :: _) => pyStrip s
    | _ => ""

/-- SophiAIUtil.validate_question_has_answer (lines 578-695).  In
non-oracle mode the model call is not guarded, so a model failure
propagates; in oracle mode it is caught and packed into details.  The
oracle path extracts a query (dict field, bare string, or first string of
a list), fails with missing_wolfram_query when empty, and otherwise
returns the best-effort oracle verdict. -/
def validate_question_has_answer (classifyOut : Except String Json)
    (modelOut : Except String Json) (resultText : String → Option String)
    (question : String) (use_wolfram : Bool) : Except String ValidationResult :=
  let uw := if use_wolfram ∧ is_math_related classifyOut question = false then false
    else use_wolfram
  if uw = false then
    match modelOut with
    | .error e => .error e
    | .ok out =>
      match coerceDict out with
      | none =>
        .ok ⟨false, none, none,
          some (jsonDumps (Json.obj
            [("answer", Json.null), ("explanation", Json.str (pyStrip (pyStr out)))]))⟩
      | some d =>
        let ok := pyBoolOpt (jLookup d "ok")
        let answerJson : Json :=
          match jLookup d "answer" with
          | none => Json.null
          | some Json.null => Json.null
          | some v => Json.str (pyStrip (pyStr v))
        let expl := pyStrip (pyStrOrEmpty (jLookup d "explanation"))
        .ok ⟨ok, none, none,
          some (jsonDumps (Json.obj [("answer", answerJson), ("explanation", Json.str expl)]))⟩
  else
    match modelOut with
    | .error e => .ok ⟨false, none, none, some e⟩
    | .ok out =>
      let wq := vqhaExtractQuery out
      if wq = "" then .ok ⟨false, none, none, some "missing_wolfram_query"⟩
      else
        let p := best_effort_answer resultText wq
        .ok ⟨p.1, if wq = "" then none else some wq, p.2, none⟩

/-! ## Question generation engine (sophi_ai.py lines 799-1050) -/

/-- Generated question value object (sophi_ai.py lines 47-53). -/
structure GeneratedQuestion where
  question : String
  answer : String
  wolfram_query : String
  validation_prompt : String
  metadata : JsonDict

/-- Class file value object (sophi_ai.py lines 73-98). -/
structure ClassFile where
  class_name : Option String
  syllabus : Json
  concepts : List String
  practice_problems : List String
  updated_at_iso : String

/-- Python `x or y` on optional strings (None and the empty string are
falsy). -/
def pyOrOptStr (u : Option String) (fb : Option String) : Option String :=
  match u with
  | some s => if s = "" then fb else some s
  | none => fb

/-- Python `xs or ys` on an optional list (None and the empty list are
falsy). -/
def pyOrList (u : Option (List String)) (fb : List String) : List String :=
  match u with
  | some l => if l.isEmpty then fb else l
  | none => fb

/-- Truthiness of the optional file_upload_text argument. -/
def hasUploadOf (fut : Option String) : Bool :=
  match fut with
  | some t => t ≠ ""
  | none => false

/-- The effective session of generate_question (lines 812-816): adjust by
history, then override unit focus and focus concepts by the truthy
arguments, then normalize. -/
def effectiveSession (session : SessionParameters)
    (question_answer_history : Option (List JsonDict))
    (necessary_concepts : Option (List String)) (unit_to_focus : Option String) :
    SessionParameters :=
  let adjusted := adjust_session_parameters session question_answer_history
  ({ adjusted with
      unit_focus := pyOrOptStr unit_to_focus session.unit_focus,
      focus_concepts := pyOrList necessary_concepts session.focus_concepts }).normalized

/-- The context parts assembled by the oracle gate of generate_question
(lines 819-827). -/
def contextParts (class_file : Option ClassFile) (es : SessionParameters) : List String :=
  (match class_file with
    | some cf =>
      match cf.class_name with
      | some n => if n = "" then [] else ["Class: " ++ n]
      | none => []
    | none => []) ++
  (match es.unit_focus with
    | some u => if u = "" then [] else ["Unit: " ++ u]
    | none => []) ++
  (if es.focus_concepts.isEmpty then []
    else ["Concepts: " ++ String.intercalate ", " es.focus_concepts])

/-- The oracle gate of generate_question (lines 818-829): with a truthy
use_wolfram, a nonempty assembled context that the classifier rejects
turns the oracle off. -/
def effectiveUseWolfram (use_wolfram : Bool) (classifyOut : Except String Json)
    (class_file : Option ClassFile) (es : SessionParameters) : Bool :=
  if use_wolfram then
    let context_str := String.intercalate " " (contextParts class_file es)
    if context_str ≠ "" ∧ is_math_related classifyOut context_str = false then false
    else use_wolfram
  else use_wolfram

/-- Python dict.setdefault (insertion appends at the end). -/
def setdefault (d : JsonDict) (k : String) (v : Json) : JsonDict :=
  if dictContains d k then d else d ++ [(k, v)]

/-- The metadata defaulting chain of generate_question (lines 1029-1040). -/
def metadataDefaults (es : SessionParameters) (uw : Bool)
    (hasUpload hasClassFile : Bool) (raw : Option Json) : JsonDict :=
  let md : JsonDict :=
    match raw with
    | some (Json.obj fields) => fields
    | _ => []
  let md := setdefault md "difficulty_level" (Json.num ((es.difficulty_level : ℚ)))
  let md := setdefault md "concepts" (Json.arr (es.focus_concepts.map Json.str))
  let md := setdefault md "unit"
    (match es.unit_focus with | some u => Json.str u | none => Json.null)
  let md := setdefault md "cumulative" (Json.bool es.cumulative)
  let md := setdefault md "adaptive" (Json.bool es.adaptive)
  let md := setdefault md "verified_with_wolfram" (Json.bool uw)
  let md := if hasUpload then setdefault md "used_file_upload" (Json.bool true) else md
  let md := if hasClassFile then setdefault md "used_class_file" (Json.bool true) else md
  md

/-- Outcome of one body pass of the generate_question attempt loop. -/
inductive QAttemptOutcome where
  | retry (tag : String)
  | done (gq : GeneratedQuestion)
  | raiseErr (msg : String)

/-- One pass of the generate_question attempt body (lines 975-1048):
shape coercion, required-field checks with their failure tags, the
one-shot answer recovery in non-oracle mode (abstracted as the
already-computed recoveredAnswer string, empty when recovery found
nothing or raised), oracle resolution of the final answer, the
validation-prompt subcall (vp, whose error propagates), and metadata
defaulting. -/
def questionAttempt (uw : Bool) (oracle : String → Option String)
    (recoveredAnswer : String) (vp : Except String String)
    (es : SessionParameters) (hasUpload hasClassFile : Bool) (out : Json) :
    QAttemptOutcome :=
  match coerceDict out with
  | none => .retry "invalid_output_shape"
  | some d =>
    let question := strFieldStripped d "question"
    let wolfram_query := strFieldStripped d "wolfram_query"
    let answer_llm := strFieldStripped d "answer"
    if question = "" then .retry "missing_question"
    else if uw ∧ wolfram_query = "" then .retry "missing_wolfram_query"
    else
      let answer_llm :=
        if uw = false ∧ answer_llm = "" then
          if recoveredAnswer = "" then answer_llm else recoveredAnswer
        else answer_llm
      if uw = false ∧ answer_llm = "" then .retry "missing_answer"
      else
        let finish : String → QAttemptOutcome := fun finalAnswer =>
          match vp with
          | .error m => .raiseErr m
          | .ok vprompt =>
            .done ⟨question, finalAnswer, if uw then wolfram_query else "", vprompt,
              metadataDefaults es uw hasUpload hasClassFile (dictGet d "metadata")⟩
        if uw then
          let wa := oracle wolfram_query
          let waFalsy : Bool := match wa with | none => true | some r => r = ""
          if waFalsy ∨ containsSubstr (wa.getD "") notUnderstood then
            .retry ("wolfram_no_answer: " ++ pyStrOfOptStr wa)
          else finish (wa.getD "")
        else finish answer_llm

/-- The attempt loop of generate_question (lines 966-1050): remaining
attempt budget, current 1-based attempt index, and last failure tag; the
result carries the number of attempts performed.  Exhaustion raises the
terminal error carrying the last failure tag. -/
def gqLoop (uw : Bool) (oracle : String → Option String) (recover : Nat → String)
    (vp : Except String String) (es : SessionParameters)
    (hasUpload hasClassFile : Bool) (env : Nat → Except String Json) (N : Nat) :
    Nat → Nat → Option String → Except String GeneratedQuestion × Nat
  | 0, a, lastErr =>
    (.error ("Failed to generate verifiable question after " ++ toString N
      ++ " attempts: " ++ pyStrOfOptStr lastErr), a - 1)
  | r + 1, a, lastErr =>
    match env a with
    | .error e => (.error e, a)
    | .ok out =>
      match questionAttempt uw oracle (recover a) vp es hasUpload hasClassFile out with
      | .retry tag => gqLoop uw oracle recover vp es hasUpload hasClassFile env N r (a + 1) (some tag)
      | .done gq => (.ok gq, a)
      | .raiseErr m => (.error m, a)

/-- SophiAIUtil.generate_question (lines 799-1050).  The classifier call,
the per-attempt model call, the oracle, the answer-recovery subcall and
the validation-prompt subcall are environment parameters; prompt assembly
affects only the text sent to the model and is absorbed by the
environment.  Returns the outcome together with the number of attempts
performed. -/
def generate_question (session : SessionParameters)
    (question_answer_history : Option (List JsonDict))
    (necessary_concepts : Option (List String)) (unit_to_focus : Option String)
    (file_upload_text : Option String) (class_file : Option ClassFile)
    (classifyOut : Except String Json) (env : Nat → Except String Json)
    (oracle : String → Option String) (recover : Nat → String)
    (vp : Except String String) (max_attempts : Nat) (use_wolfram : Bool) :
    Except String GeneratedQuestion × Nat :=
  let es := effectiveSession session question_answer_history necessary_concepts unit_to_focus
  let uw := effectiveUseWolfram use_wolfram classifyOut class_file es
  gqLoop uw oracle recover vp es (hasUploadOf file_upload_text) class_file.isSome env
    max_attempts max_attempts 1 none

theorem questionAttempt_retry_tag_forms (uw : Bool) (oracle : String → Option String)
    (rec : String) (vp : Except String String) (es : SessionParameters)
    (hu hcf : Bool) (out : Json) (tag : String)
    (h : questionAttempt uw oracle rec vp es hu hcf out = .retry tag) :
    tag = "invalid_output_shape" ∨ tag = "missing_question"
    ∨ tag = "missing_wolfram_query" ∨ tag = "missing_answer"
    ∨ ∃ d, tag = "wolfram_no_answer: " ++ d := by
  unfold questionAttempt at h
  split at h
  · injection h with heq
    exact Or.inl heq.symm
  · simp only [] at h
    split_ifs at h <;>
      first
        | (split at h <;> cases h)
        | (injection h with heq;
            first
              | exact Or.inl heq.symm
              | exact Or.inr (Or.inl heq.symm)
              | exact Or.inr (Or.inr (Or.inl heq.symm))
              | exact Or.inr (Or.inr (Or.inr (Or.inl heq.symm)))
              | exact Or.inr (Or.inr (Or.inr (Or.inr ⟨_, heq.symm⟩))))

theorem gqLoop_exhausts_aux (uw : Bool) (oracle : String → Option String)
    (recover : Nat → String) (vp : Except String String) (es : SessionParameters)
    (hu hcf : Bool) (env : Nat → Except String Json) (N : Nat)
    (outs : Nat → Json) (tags : Nat → String)
    (hout : ∀ a, 1 ≤ a → a ≤ N → env a = .ok (outs a))
    (hfail : ∀ a, 1 ≤ a → a ≤ N →
      questionAttempt uw oracle (recover a) vp es hu hcf (outs a) = .retry (tags a)) :
    ∀ (r a : Nat) (lastErr : Option String), 1 ≤ r → 1 ≤ a → a + r = N + 1 →
      gqLoop uw oracle recover vp es hu hcf env N r a lastErr
        = (.error ("Failed to generate verifiable question after " ++ toString N
            ++ " attempts: " ++ tags N), N) := by
  intro r
  induction r with
  | zero => intro a lastErr hr; exact absurd hr (by norm_num)
  | succ r ih =>
    intro a lastErr hr ha1 hsum
    have haN : a ≤ N := by omega
    unfold gqLoop
    rw [hout a ha1 haN]
    simp only [hfail a ha1 haN]
    by_cases hzero : r = 0
    · subst hzero
      have haeq : a = N := by omega
      subst haeq
      unfold gqLoop
      simp [pyStrOfOptStr]
    · exact ih (a + 1) (some (tags a)) (by omega) (by omega) (by omega)

/-- C2: when the per-attempt environment delivers outputs that all fail
the acceptance checks (hfail gives each attempt a failure tag from the
attempt body), generate_question performs exactly N attempts and raises
the single terminal error carrying the last attempt tag, which is one of
the five tagged forms. -/
theorem generate_question_exhausts (session : SessionParameters)
    (history : Option (List JsonDict)) (nc : Option (List String))
    (utf : Option String) (fut : Option String) (cf : Option ClassFile)
    (classifyOut : Except String Json) (env : Nat → Except String Json)
    (oracle : String → Option String) (recover : Nat → String)
    (vp : Except String String) (N : Nat) (uwParam : Bool)
    (outs : Nat → Json) (tags : Nat → String)
    (hN : 1 ≤ N)
    (hout : ∀ a, 1 ≤ a → a ≤ N → env a = .ok (outs a))
    (hfail : ∀ a, 1 ≤ a → a ≤ N →
      questionAttempt
        (effectiveUseWolfram uwParam classifyOut cf (effectiveSession session history nc utf))
        oracle (recover a) vp (effectiveSession session history nc utf)
        (hasUploadOf fut) cf.isSome (outs a) = .retry (tags a)) :
    generate_question session history nc utf fut cf classifyOut env oracle recover vp N uwParam
      = (.error ("Failed to generate verifiable question after " ++ toString N
          ++ " attempts: " ++ tags N), N)
    ∧ (tags N = "invalid_output_shape" ∨ tags N = "missing_question"
        ∨ tags N = "missing_wolfram_query" ∨ tags N = "missing_answer"
        ∨ ∃ d, tags N = "wolfram_no_answer: " ++ d) := by
  constructor
  · unfold generate_question
    exact gqLoop_exhausts_aux _ oracle recover vp _ _ _ env N outs tags hout hfail
      N 1 none hN (by norm_num) (by omega)
  · exact questionAttempt_retry_tag_forms _ oracle _ vp _ _ _ (outs N) (tags N)
      (hfail N hN (le_refl N))

/-- Witness for C2 at the default budget of 3 with a model that always
returns an empty object: every attempt fails with missing_question and
the terminal error carries that tag after exactly 3 attempts. -/
theorem generate_question_exhausts_witness :
    generate_question (SessionParameters.mk 2 false false [] none) none none none none none
        (.ok Json.null) (fun _ => .ok (Json.obj [])) (fun _ => none) (fun _ => "")
        (.ok "vp") 3 true
      = (.error ("Failed to generate verifiable question after " ++ toString 3
          ++ " attempts: " ++ "missing_question"), 3) :=
  (generate_question_exhausts (SessionParameters.mk 2 false false [] none) none none none none
      none (.ok Json.null) (fun _ => .ok (Json.obj [])) (fun _ => none) (fun _ => "")
      (.ok "vp") 3 true (fun _ => Json.obj []) (fun _ => "missing_question")
      (by norm_num) (fun a h1 h2 => rfl) (fun a h1 h2 => rfl)).1

theorem questionAttempt_done_wolfram_query_nonempty (oracle : String → Option String)
    (rec : String) (vp : Except String String) (es : SessionParameters)
    (hu hcf : Bool) (out : Json) (gq : GeneratedQuestion)
    (h : questionAttempt true oracle rec vp es hu hcf out = .done gq) :
    gq.wolfram_query ≠ "" := by
  unfold questionAttempt at h
  split at h
  · cases h
  · simp only [] at h
    split_ifs at h with hq hw ha hr1 hr2 hwa <;>
      first
        | cases h
        | (split at h <;>
            first
              | (injection h with hrec; subst hrec; intro hc; apply hw; exact ⟨trivial, hc⟩)
              | injection h)

theorem gqLoop_ok_wolfram_query_nonempty (oracle : String → Option String)
    (recover : Nat → String) (vp : Except String String) (es : SessionParameters)
    (hu hcf : Bool) (env : Nat → Except String Json) (N : Nat) :
    ∀ (r a : Nat) (lastErr : Option String) (gq : GeneratedQuestion),
      (gqLoop true oracle recover vp es hu hcf env N r a lastErr).1 = .ok gq →
      gq.wolfram_query ≠ "" := by
  intro r
  induction r with
  | zero =>
    intro a lastErr gq h
    cases h
  | succ r ih =>
    intro a lastErr gq h
    unfold gqLoop at h
    cases henv : env a with
    | error e =>
      rw [henv] at h
      simp only [] at h
      cases h
    | ok out =>
      rw [henv] at h
      simp only [] at h
      cases hatt : questionAttempt true oracle (recover a) vp es hu hcf out with
      | retry tag =>
        rw [hatt] at h
        simp only [] at h
        exact ih (a + 1) (some tag) gq h
      | done gq2 =>
        rw [hatt] at h
        simp only [] at h
        injection h with h2
        subst h2
        exact questionAttempt_done_wolfram_query_nonempty oracle (recover a) vp es hu hcf
          out gq2 hatt
      | raiseErr m =>
        rw [hatt] at h
        simp only [] at h
        cases h

/-- C3 amended: when generate_question is called with use_wolfram true
and the oracle gate leaves it on (empty assembled context or math-related
classification), every returned GeneratedQuestion has a non-empty
wolfram_query. -/
theorem generate_question_wolfram_query_nonempty (session : SessionParameters)
    (history : Option (List JsonDict)) (nc : Option (List String))
    (utf : Option String) (fut : Option String) (cf : Option ClassFile)
    (classifyOut : Except String Json) (env : Nat → Except String Json)
    (oracle : String → Option String) (recover : Nat → String)
    (vp : Except String String) (N : Nat) (gq : GeneratedQuestion)
    (hgate : effectiveUseWolfram true classifyOut cf
        (effectiveSession session history nc utf) = true)
    (h : (generate_question session history nc utf fut cf classifyOut env oracle recover
        vp N true).1 = .ok gq) :
    gq.wolfram_query ≠ "" := by
  unfold generate_question at h
  simp only [] at h
  rw [hgate] at h
  exact gqLoop_ok_wolfram_query_nonempty oracle recover vp _ _ _ env N N 1 none gq h

/-- Witness for the amended C3: a fully successful oracle-mode run
returns a non-empty wolfram_query. -/
theorem generate_question_wolfram_query_nonempty_witness :
    (generate_question (SessionParameters.mk 2 false false [] none) none none none none none
        (.ok Json.null)
        (fun _ => .ok (Json.obj [("question", Json.str "Solve 2x+3=11."),
          ("wolfram_query", Json.str "Solve 2x+3=11 for x"),
          ("answer", Json.str "x=4")]))
        (fun _ => some "x = 4") (fun _ => "") (.ok "vp") 3 true).1
      = .ok (GeneratedQuestion.mk "Solve 2x+3=11." "x = 4" "Solve 2x+3=11 for x" "vp"
          (metadataDefaults (effectiveSession (SessionParameters.mk 2 false false [] none)
            none none none) true false false none))
    ∧ (GeneratedQuestion.mk "Solve 2x+3=11." "x = 4" "Solve 2x+3=11 for x" "vp"
        (metadataDefaults (effectiveSession (SessionParameters.mk 2 false false [] none)
          none none none) true false false none)).wolfram_query ≠ "" := by
  constructor
  · rfl
  · exact generate_question_wolfram_query_nonempty (SessionParameters.mk 2 false false [] none)
      none none none none none (.ok Json.null)
      (fun _ => .ok (Json.obj [("question", Json.str "Solve 2x+3=11."),
        ("wolfram_query", Json.str "Solve 2x+3=11 for x"),
        ("answer", Json.str "x=4")]))
      (fun _ => some "x = 4") (fun _ => "") (.ok "vp") 3 _ rfl rfl

/-- C3 counterexample: with use_wolfram true, a history-class context that
the classifier rejects flips the oracle off, and the call returns a
GeneratedQuestion whose wolfram_query is the empty string. -/
theorem generate_question_empty_query_counterexample :
    (generate_question (SessionParameters.mk 3 false false [] none) none none none none
        (some (ClassFile.mk (some "World History") Json.null [] [] "2026-01-01"))
        (.ok (Json.obj [("is_math", Json.bool false)]))
        (fun _ => .ok (Json.obj [("question", Json.str "In what year did WW2 end?"),
          ("answer", Json.str "1945")]))
        (fun _ => none) (fun _ => "") (.ok "vp") 3 true).1.map
      (fun gq => gq.wolfram_query) = .ok "" := rfl

/-! ## Hint generation engine (sophi_ai.py lines 1085-1228) -/

/-- Hint response value object (sophi_ai.py lines 64-70). -/
structure HintResponse where
  kind : String
  text : String
  hint_type : Option String
  wolfram_query : Option String
  wolfram_result : Option String

/-- Python truthiness of an Optional[str] (None and the empty string are
falsy). -/
def optStrTruthy : Option String → Bool
  | some s => s ≠ ""
  | none => false

/-- The `str(x).strip() if x else None` idiom used for hint_type and
wolfram_query (lines 1200-1203). -/
def strFieldOrNone (d : JsonDict) (k : String) : Option String :=
  match dictGet d k with
  | some v => if pyBool v then some (pyStrip (pyStr v)) else none
  | none => none

/-- Outcome of one body pass of the generate_hint attempt loop. -/
inductive HAttemptOutcome where
  | retry (issue : String)
  | doneResp (resp : HintResponse)

/-- One pass of the generate_hint attempt body (lines 1198-1219): kind
and text acceptance, immediate return of followups, immediate return of
hints when the oracle is off, and oracle verification of the declared
query otherwise — an absent, empty, or not-understood oracle result makes
the hint unverifiable and the attempt retries. -/
def hintAttempt (uw : Bool) (oracle : String → Option String) (out : JsonDict) :
    HAttemptOutcome :=
  let kind := strFieldStripped out "kind"
  let text := strFieldStripped out "text"
  let ht := strFieldOrNone out "hint_type"
  let wq := strFieldOrNone out "wolfram_query"
  if (kind ≠ "followup" ∧ kind ≠ "hint") ∨ text = "" then
    .retry "invalid_kind_or_missing_text"
  else if kind = "followup" then
    .doneResp ⟨"followup", text, none, none, none⟩
  else if uw = false then
    .doneResp ⟨"hint", text, ht, none, none⟩
  else
    let wolfram_result := if optStrTruthy wq then oracle (wq.getD "") else none
    if optStrTruthy wq ∧ optStrTruthy wolfram_result
        ∧ containsSubstr (wolfram_result.getD "") notUnderstood = false then
      .doneResp ⟨"hint", text, ht, wq, wolfram_result⟩
    else .retry "wolfram_unverifiable_hint"

/-- The attempt loop of generate_hint (lines 1184-1228): on exhaustion it
falls back to the stripped text field of the last model output with the
caller-supplied hint_type — it returns instead of raising. -/
def ghLoop (uw : Bool) (oracle : String → Option String) (hint_type : Option String)
    (env : Nat → Except String JsonDict) :
    Nat → Nat → Option String → Option JsonDict → Except String HintResponse
  | 0, _, _, lastOut =>
    .ok ⟨"hint", pyStrip (pyStrOrEmpty (dictGet (lastOut.getD []) "text")),
      hint_type, none, none⟩
  | r + 1, a, _, _ =>
    match env a with
    | .error e => .error e
    | .ok out =>
      match hintAttempt uw oracle out with
      | .retry issue => ghLoop uw oracle hint_type env r (a + 1) (some issue) (some out)
      | .doneResp resp => .ok resp

/-- The oracle gate of generate_hint (lines 1097-1098). -/
def effectiveHintWolfram (use_wolfram : Bool) (classifyOut : Except String Json)
    (problem : String) : Bool :=
  if use_wolfram ∧ is_math_related classifyOut problem = false then false
  else use_wolfram

/-- SophiAIUtil.generate_hint (lines 1085-1228), with the classifier, the
per-attempt model call and the oracle as environment parameters. -/
def generate_hint (classifyOut : Except String Json)
    (env : Nat → Except String JsonDict) (oracle : String → Option String)
    (problem : String) (hint_type : Option String) (max_attempts : Nat)
    (use_wolfram : Bool) : Except String HintResponse :=
  let uw := effectiveHintWolfram use_wolfram classifyOut problem
  ghLoop uw oracle hint_type env max_attempts 1 none none

theorem ghLoop_exhausts_aux (uw : Bool) (oracle : String → Option String)
    (hint_type : Option String) (env : Nat → Except String JsonDict) (N : Nat)
    (outs : Nat → JsonDict) (issues : Nat → String)
    (hout : ∀ a, 1 ≤ a → a ≤ N → env a = .ok (outs a))
    (hfail : ∀ a, 1 ≤ a → a ≤ N → hintAttempt uw oracle (outs a) = .retry (issues a)) :
    ∀ (r a : Nat) (lastIssue : Option String) (lastOut : Option JsonDict),
      1 ≤ r → 1 ≤ a → a + r = N + 1 →
      ghLoop uw oracle hint_type env r a lastIssue lastOut
        = .ok ⟨"hint", pyStrip (pyStrOrEmpty (dictGet (outs N) "text")),
            hint_type, none, none⟩ := by
  intro r
  induction r with
  | zero => intro a li lo hr; exact absurd hr (by norm_num)
  | succ r ih =>
    intro a li lo hr ha1 hsum
    have haN : a ≤ N := by omega
    unfold ghLoop
    rw [hout a ha1 haN]
    simp only [hfail a ha1 haN]
    by_cases hzero : r = 0
    · subst hzero
      have haeq : a = N := by omega
      subst haeq
      unfold ghLoop
      rfl
    · exact ih (a + 1) (some (issues a)) (some (outs a)) (by omega) (by omega) (by omega)

/-- C7: when every attempt of generate_hint fails acceptance or oracle
verification, the call returns (rather than raises) a hint response
whose text is the stripped text field of the last attempt raw output. -/
theorem generate_hint_exhausts_degrades (classifyOut : Except String Json)
    (env : Nat → Except String JsonDict) (oracle : String → Option String)
    (problem : String) (hint_type : Option String) (N : Nat) (uwParam : Bool)
    (outs : Nat → JsonDict) (issues : Nat → String)
    (hN : 1 ≤ N)
    (hout : ∀ a, 1 ≤ a → a ≤ N → env a = .ok (outs a))
    (hfail : ∀ a, 1 ≤ a → a ≤ N →
      hintAttempt (effectiveHintWolfram uwParam classifyOut problem) oracle (outs a)
        = .retry (issues a)) :
    generate_hint classifyOut env oracle problem hint_type N uwParam
      = .ok ⟨"hint", pyStrip (pyStrOrEmpty (dictGet (outs N) "text")),
          hint_type, none, none⟩ := by
  unfold generate_hint
  exact ghLoop_exhausts_aux _ oracle hint_type env N outs issues hout hfail N 1 none none
    hN (by norm_num) (by omega)

/-- Witness for C7 at the default budget of 2: both hint attempts are
oracle-unverifiable, and the call returns the last raw text. -/
theorem generate_hint_exhausts_degrades_witness :
    generate_hint (.ok (Json.obj [("is_math", Json.bool true)]))
        (fun _ => .ok [("kind", Json.str "hint"),
          ("text", Json.str "Try factoring the quadratic.")])
        (fun _ => none) "Solve x^2-5x+6=0" (some "Strategic") 2 true
      = .ok ⟨"hint", "Try factoring the quadratic.", some "Strategic", none, none⟩ :=
  generate_hint_exhausts_degrades (.ok (Json.obj [("is_math", Json.bool true)]))
    (fun _ => .ok [("kind", Json.str "hint"),
      ("text", Json.str "Try factoring the quadratic.")])
    (fun _ => none) "Solve x^2-5x+6=0" (some "Strategic") 2 true
    (fun _ => [("kind", Json.str "hint"), ("text", Json.str "Try factoring the quadratic.")])
    (fun _ => "wolfram_unverifiable_hint") (by norm_num)
    (fun a h1 h2 => rfl) (fun a h1 h2 => rfl)

/-! ## C4: the not-understood sentinel downstream -/

/-- C4 counterexample: a result containing the bare phrase did not
understand (without the Wolfram prefix) makes best_effort_answer return
ok=true; and even with the full sentinel, validate_hint_against_step
returns ok=true when the model judges the hint consistent — so the claim
fails both on the substring and on the every-ValidationResult clause. -/
theorem oracle_not_understood_counterexample :
    containsSubstr "I did not understand that query" "did not understand" = true
    ∧ best_effort_answer (fun _ => some "I did not understand that query") "2+2"
        = (true, some "I did not understand that query")
    ∧ containsSubstr "Wolfram|Alpha did not understand your input" "did not understand" = true
    ∧ validate_hint_against_step (.ok (Json.obj [("is_math", Json.bool true)]))
        (.ok [("is_consistent", Json.bool true), ("wolfram_query", Json.str "D[x^2,x]"),
          ("explanation", Json.str "ok")])
        (fun _ => some "Wolfram|Alpha did not understand your input")
        "derivative of x^2" true
        = .ok ⟨true, some "D[x^2,x]",
            some "Wolfram|Alpha did not understand your input", some "ok"⟩ :=
  ⟨by decide, rfl, by decide, rfl⟩

/-- C4 amended: an oracle result containing the sentinel
Wolfram|Alpha did not understand yields a failure in each consumer:
best_effort_answer returns ok=false; a generate_question attempt that
reaches the oracle retries with the wolfram_no_answer tag; a
generate_hint attempt that reaches the oracle retries as unverifiable;
the oracle mode of validate_question_has_answer returns ok=false.  The
ok of validate_hint_against_step instead always equals the model
consistency judgment — the oracle result is attached as evidence only. -/
theorem oracle_not_understood_amended :
    (∀ (rt : String → Option String) (q r : String), rt q = some r →
        containsSubstr r notUnderstood = true → (best_effort_answer rt q).1 = false)
    ∧ (∀ (oracle : String → Option String) (recAns : String) (vp : Except String String)
        (es : SessionParameters) (hu hcf : Bool) (d : JsonDict) (r : String),
        strFieldStripped d "question" ≠ "" → strFieldStripped d "wolfram_query" ≠ "" →
        oracle (strFieldStripped d "wolfram_query") = some r →
        containsSubstr r notUnderstood = true →
        questionAttempt true oracle recAns vp es hu hcf (Json.obj d)
          = .retry ("wolfram_no_answer: " ++ r))
    ∧ (∀ (oracle : String → Option String) (out : JsonDict) (r : String),
        strFieldStripped out "kind" = "hint" → strFieldStripped out "text" ≠ "" →
        optStrTruthy (strFieldOrNone out "wolfram_query") = true →
        oracle ((strFieldOrNone out "wolfram_query").getD "") = some r →
        containsSubstr r notUnderstood = true →
        hintAttempt true oracle out = .retry "wolfram_unverifiable_hint")
    ∧ (∀ (classifyOut : Except String Json) (out : Json) (rt : String → Option String)
        (q r : String),
        is_math_related classifyOut q = true →
        vqhaExtractQuery out ≠ "" →
        rt (vqhaExtractQuery out) = some r →
        containsSubstr r notUnderstood = true →
        validate_question_has_answer classifyOut (.ok out) rt q true
          = .ok ⟨false, some (vqhaExtractQuery out), some r, none⟩)
    ∧ (∀ (classifyOut : Except String Json) (out : JsonDict)
        (rt : String → Option String) (q : String) (uw : Bool) (vr : ValidationResult),
        validate_hint_against_step classifyOut (.ok out) rt q uw = .ok vr →
        vr.ok = pyBoolOpt (jLookup out "is_consistent")) := by
  refine ⟨?_, ?_, ?_, ?_, ?_⟩
  · intro rt q r h1 h2
    have hrne : r ≠ "" := by
      intro hre
      subst hre
      exact absurd h2 (by decide)
    simp [best_effort_answer, h1, hrne, h2]
  · intro oracle recAns vp es hu hcf d r hq hw h3 h4
    have hrne : r ≠ "" := by
      intro hre
      subst hre
      exact absurd h4 (by decide)
    simp [questionAttempt, coerceDict, hq, hw, h3, h4, hrne, pyStrOfOptStr]
  · intro oracle out r hk ht hwt h3 h4
    have hne1 : ("hint" : String) ≠ "followup" := by decide
    simp [hintAttempt, hk, ht, hwt, h3, h4, hne1]
  · intro classifyOut out rt q r hm hwq h3 h4
    have hrne : r ≠ "" := by
      intro hre
      subst hre
      exact absurd h4 (by decide)
    simp [validate_question_has_answer, hm, hwq, best_effort_answer, h3, h4, hrne]
  · intro classifyOut out rt q uw vr h
    unfold validate_hint_against_step at h
    simp only [] at h
    injection h with h2
    subst h2
    rfl

/-- Witness for the amended C4: each consumer evaluated at a concrete
oracle answering with the full sentinel. -/
theorem oracle_not_understood_amended_witness :
    (best_effort_answer (fun _ => some "Wolfram|Alpha did not understand your input")
        "2+2").1 = false
    ∧ questionAttempt true (fun _ => some "Wolfram|Alpha did not understand your input")
        "" (.ok "vp") (SessionParameters.mk 1 false false [] none) false false
        (Json.obj [("question", Json.str "Integrate x"),
          ("wolfram_query", Json.str "Integrate x dx")])
        = .retry ("wolfram_no_answer: " ++ "Wolfram|Alpha did not understand your input")
    ∧ hintAttempt true (fun _ => some "Wolfram|Alpha did not understand your input")
        [("kind", Json.str "hint"), ("text", Json.str "Use the power rule."),
          ("wolfram_query", Json.str "D[x^2,x]")]
        = .retry "wolfram_unverifiable_hint"
    ∧ validate_question_has_answer (.ok (Json.obj [("is_math", Json.bool true)]))
        (.ok (Json.obj [("wolfram_query", Json.str "Solve x+1=2")]))
        (fun _ => some "Wolfram|Alpha did not understand your input") "Solve x+1=2" true
        = .ok ⟨false, some (vqhaExtractQuery (Json.obj [("wolfram_query", Json.str "Solve x+1=2")])),
            some "Wolfram|Alpha did not understand your input", none⟩
    ∧ (ValidationResult.mk true (some "D[x^2,x]")
        (some "Wolfram|Alpha did not understand your input") (some "ok")).ok
        = pyBoolOpt (jLookup [("is_consistent", Json.bool true),
            ("wolfram_query", Json.str "D[x^2,x]"), ("explanation", Json.str "ok")]
            "is_consistent") :=
  ⟨oracle_not_understood_amended.1 (fun _ => some "Wolfram|Alpha did not understand your input")
      "2+2" "Wolfram|Alpha did not understand your input" rfl (by decide),
    oracle_not_understood_amended.2.1 (fun _ => some "Wolfram|Alpha did not understand your input")
      "" (.ok "vp") (SessionParameters.mk 1 false false [] none) false false
      [("question", Json.str "Integrate x"), ("wolfram_query", Json.str "Integrate x dx")]
      "Wolfram|Alpha did not understand your input" (by decide) (by decide) rfl (by decide),
    oracle_not_understood_amended.2.2.1 (fun _ => some "Wolfram|Alpha did not understand your input")
      [("kind", Json.str "hint"), ("text", Json.str "Use the power rule."),
        ("wolfram_query", Json.str "D[x^2,x]")]
      "Wolfram|Alpha did not understand your input" (by decide) (by decide) (by decide) rfl
      (by decide),
    oracle_not_understood_amended.2.2.2.1 (.ok (Json.obj [("is_math", Json.bool true)]))
      (Json.obj [("wolfram_query", Json.str "Solve x+1=2")])
      (fun _ => some "Wolfram|Alpha did not understand your input") "Solve x+1=2"
      "Wolfram|Alpha did not understand your input" (by decide) (by decide) rfl (by decide),
    oracle_not_understood_amended.2.2.2.2 (.ok (Json.obj [("is_math", Json.bool true)]))
      [("is_consistent", Json.bool true), ("wolfram_query", Json.str "D[x^2,x]"),
        ("explanation", Json.str "ok")]
      (fun _ => some "Wolfram|Alpha did not understand your input") "derivative of x^2" true
      (ValidationResult.mk true (some "D[x^2,x]")
        (some "Wolfram|Alpha did not understand your input") (some "ok")) rfl⟩

end Sophi
